import Mathlib

/-!
Shallow embedding of the read-sum-magic repository's extraction pipeline.

Client side (src/src/pages/Index.tsx): `processImage` normalizes the service
response (table-cell coercion via `String(x || '')`, `parseInt(x) || 0` for
the two reported totals), computes the checksum `calculatedSum` by a
`reduce` over the rows, and sets `isValid := calculatedSum === bubbleDigits`;
`handleExtract` runs the batch loop, appending successful results and
counting failures.

Server side (src/supabase/functions/extract-document/index.ts): the `serve`
handler validates the request (presence, data-URL subtype regex, 10 MiB
size bound computed as `Math.ceil(length * 0.75)`, API key presence), maps
gateway failure statuses (429/402/other), strips markdown code fences from
the model reply and parses it as JSON.

JavaScript semantics needed by that code (truthiness, `String(v)`,
`parseInt`, `split(',')`, global regex replacement of the two fence
patterns) are embedded explicitly below.  Numbers that the code only ever
treats as integers are modelled as `Int`/`Nat` (exact within the float-safe
range the code can reach), and `JSON.parse` — a platform builtin, not
repository code — is an abstract parameter of the handler.
-/

/-- A JavaScript value as it can appear in the service's JSON response:
`undefined` (absent field), `null`, booleans, integer-valued numbers, `NaN`,
and strings. -/
inductive JsValue where
  | vUndefined : JsValue
  | vNull : JsValue
  | vBool : Bool → JsValue
  | vNum : Int → JsValue
  | vNaN : JsValue
  | vStr : String → JsValue
deriving DecidableEq

/-- JavaScript truthiness: `undefined`, `null`, `false`, `0`, `NaN` and the
empty string are falsy; everything else is truthy. -/
def jsTruthy : JsValue → Bool
  | .vUndefined => false
  | .vNull => false
  | .vBool b => b
  | .vNum n => !(n == 0)
  | .vNaN => false
  | .vStr s => !(s == "")

/-- JavaScript `String(v)` on the modelled values. -/
def jsToString : JsValue → String
  | .vUndefined => "undefined"
  | .vNull => "null"
  | .vBool b => if b then "true" else "false"
  | .vNum n => toString n
  | .vNaN => "NaN"
  | .vStr s => s

/-- The whitespace characters `parseInt` skips at the front of its input. -/
def jsWhitespace (c : Char) : Bool :=
  c == ' ' || c == '\t' || c == '\n' || c == '\r' || c == '\x0b' || c == '\x0c'

/-- Value of one digit character under the given radix, `none` when the
character is not a digit of that radix. -/
def digitValue (radix : Nat) (c : Char) : Option Nat :=
  let v : Option Nat :=
    if '0' ≤ c ∧ c ≤ '9' then some (c.toNat - 48)
    else if 'a' ≤ c ∧ c ≤ 'z' then some (c.toNat - 97 + 10)
    else if 'A' ≤ c ∧ c ≤ 'Z' then some (c.toNat - 65 + 10)
    else none
  match v with
  | some n => if n < radix then some n else none
  | none => none

/-- JavaScript `parseInt(s)` (radix argument omitted, as in the source):
skip leading whitespace, read an optional sign, detect a `0x`/`0X` prefix
(hex) or fall back to radix 10, then read the longest run of digits and
ignore everything after it.  `none` models `NaN` (no digits at all). -/
def jsParseInt (s : String) : Option Int :=
  let l := s.toList.dropWhile jsWhitespace
  let sign : Int := match l with
    | '-' :: _ => -1
    | _ => 1
  let l1 := match l with
    | '-' :: rest => rest
    | '+' :: rest => rest
    | _ => l
  let radix : Nat := match l1 with
    | '0' :: 'x' :: _ => 16
    | '0' :: 'X' :: _ => 16
    | _ => 10
  let l2 := match l1 with
    | '0' :: 'x' :: rest => rest
    | '0' :: 'X' :: rest => rest
    | _ => l1
  let ds := l2.takeWhile (fun c => (digitValue radix c).isSome)
  if ds.isEmpty then none
  else some (sign * (ds.foldl (fun acc c => acc * radix + ((digitValue radix c).getD 0)) 0 : Nat))

/-- The source's `parseInt(s) || 0`: `NaN` becomes `0` (a parsed
`0` or `-0` stays `0`). -/
def jsParseIntOr0 (s : String) : Int :=
  match jsParseInt s with
  | some n => n
  | none => 0

/-- One raw row of `data.tableData` as the service returned it: each cell is
an arbitrary JavaScript value (absent cells are `vUndefined`). -/
structure RawRow where
  qNo : JsValue
  a : JsValue
  b : JsValue
  c : JsValue
  total : JsValue
deriving DecidableEq

/-- The body the Extraction Client receives from the service on a successful
invocation: the raw `headerInfo` / `tableData` / `writtenTotal` /
`bubbleDigits` fields plus the `error` field the client checks for
truthiness (absent is `vUndefined`). -/
structure RawData where
  headerInfo : Option (List (String × String))
  tableData : Option (List RawRow)
  writtenTotal : JsValue
  bubbleDigits : JsValue
  error : JsValue
deriving DecidableEq

/-- Structure `TableRow` of Index.tsx: all five cells coerced to display strings. -/
structure TableRow where
  qNo : String
  a : String
  b : String
  c : String
  total : String
deriving DecidableEq

/-- Field `totalMarks` of `ExtractionResult` in Index.tsx. -/
structure TotalMarks where
  calculated : Int
  written : Int
  bubbleDigits : Int
deriving DecidableEq

/-- Structure `ExtractionResult` of Index.tsx. -/
structure ExtractionResult where
  headerInfo : List (String × String)
  tableData : List TableRow
  totalMarks : TotalMarks
  isValid : Bool
  imageId : String
  imageName : String
deriving DecidableEq

/-- The per-cell normalization `String(cell || '')` in `processImage`:
`cell || ''` yields the cell when it is truthy and `''` otherwise, and the
result is passed through `String(...)`. -/
def normCell (v : JsValue) : String :=
  jsToString (if jsTruthy v then v else .vStr "")

/-- The row normalization in `processImage` (lines 84–90 of Index.tsx). -/
def normRow (r : RawRow) : TableRow :=
  { qNo := normCell r.qNo
    a := normCell r.a
    b := normCell r.b
    c := normCell r.c
    total := normCell r.total }

/-- The checksum in `processImage` (lines 92–95 of Index.tsx):
`tableData.reduce((sum, row) => sum + (parseInt(row.total) || 0), 0)`. -/
def calculatedSum (rows : List TableRow) : Int :=
  rows.foldl (fun sum row => sum + jsParseIntOr0 row.total) 0

/-- The successful tail of `processImage` (lines 84–112 of Index.tsx):
normalize the table, compute the checksum, parse the two reported totals
with `parseInt(...) || 0`, and set `isValid := calculatedSum === bubbleDigits`. -/
def mkExtractionResult (imageId imageName : String) (d : RawData) : ExtractionResult :=
  let tableData := (d.tableData.getD []).map normRow
  let calculated := calculatedSum tableData
  let writtenTotal := jsParseIntOr0 (jsToString d.writtenTotal)
  let bubbleDigits := jsParseIntOr0 (jsToString d.bubbleDigits)
  { headerInfo := d.headerInfo.getD []
    tableData := tableData
    totalMarks := { calculated := calculated, written := writtenTotal, bubbleDigits := bubbleDigits }
    isValid := calculated == bubbleDigits
    imageId := imageId
    imageName := imageName }

/-- What happened to one image before the client's normalization code could
run: the encoding promise rejected, the transport-level `invoke` reported an
error, or a response body arrived. -/
inductive FetchOutcome where
  | encodeError : FetchOutcome
  | invokeError : String → FetchOutcome
  | response : RawData → FetchOutcome
deriving DecidableEq

/-- One image of a batch together with what its round trip produced. -/
structure ImageJob where
  imageId : String
  imageName : String
  outcome : FetchOutcome
deriving DecidableEq

/-- Function `processImage` (lines 68–117 of Index.tsx) as the batch loop observes
it: `null` (here `none`) when the encoding threw, the invoke returned an
error, or the body's `error` field is truthy; otherwise the normalized
`ExtractionResult`. -/
def processImage (j : ImageJob) : Option ExtractionResult :=
  match j.outcome with
  | .encodeError => none
  | .invokeError _ => none
  | .response d =>
    if jsTruthy d.error then none
    else some (mkExtractionResult j.imageId j.imageName d)

/-- The batch loop of `handleExtract` (lines 137–147 of Index.tsx):
successful results are pushed onto the accumulator, failures bump the
failure counter, and the loop always continues to the next image. -/
def handleExtractLoop (jobs : List ImageJob) : List ExtractionResult × Nat :=
  jobs.foldl
    (fun acc j =>
      match processImage j with
      | some r => (acc.1 ++ [r], acc.2)
      | none => (acc.1, acc.2 + 1))
    ([], 0)

/-! ## The Extraction Service handler -/

/-- JavaScript `s.split(',')` over the character list of `s`: `""` splits to
`[""]`, a trailing comma yields a trailing empty part, every comma
separates. -/
def jsSplitComma : List Char → List (List Char)
  | [] => [[]]
  | c :: rest =>
    if c = ',' then [] :: jsSplitComma rest
    else
      let r := jsSplitComma rest
      (c :: r.headD []) :: r.tail

/-- The source's `imageBase64.split(',')[1] || ''` — the base64 payload the handler
measures: the second component of the comma split, or empty when the index
is out of range (the `|| ''` also maps an empty component to itself). -/
def payloadOf (s : String) : List Char :=
  (jsSplitComma s.toList).getD 1 []

/-- The source's `Math.ceil(base64Data.length * 0.75)` — exact for every length the
handler can see (the product `3·n` stays far below 2^53, so the float
multiplication is exact and the ceiling is `⌈3n/4⌉`). -/
def sizeInBytes (n : Nat) : Nat :=
  (3 * n + 3) / 4

/-- Constant `maxSizeBytes = 10 * 1024 * 1024` of the handler. -/
def maxSizeBytes : Nat := 10 * 1024 * 1024

/-- Boolean string-prefix test used to embed the anchored regex. -/
def strHasPrefix (pre s : String) : Bool :=
  pre.toList.isPrefixOf s.toList

/-- The regex test `/^data:image\/(jpeg|jpg|png|webp|gif|bmp);base64,/.test(s)` — the
anchored alternation holds exactly when one of the five (six spellings)
supported data-URL prefixes starts the string. -/
def base64RegexTest (s : String) : Bool :=
  ["jpeg", "jpg", "png", "webp", "gif", "bmp"].any
    (fun t => strHasPrefix ("data:image/" ++ t ++ ";base64,") s)

/-- Whether `sub` occurs as a contiguous run somewhere in `l`. -/
def listInfixOf (sub : List Char) : List Char → Bool
  | [] => sub.isEmpty
  | c :: cs => sub.isPrefixOf (c :: cs) || listInfixOf sub cs

/-- JavaScript `s.includes(sub)`. -/
def containsSub (sub s : String) : Bool :=
  listInfixOf sub.toList s.toList

/-- Global replacement of the regex `/```json\n?/g` with the empty string:
scan left to right; at every occurrence of the seven fence characters drop
them together with one following newline if present, otherwise keep the
character and move on. -/
def stripJsonFence : List Char → List Char
  | '`' :: '`' :: '`' :: 'j' :: 's' :: 'o' :: 'n' :: '\n' :: rest => stripJsonFence rest
  | '`' :: '`' :: '`' :: 'j' :: 's' :: 'o' :: 'n' :: rest => stripJsonFence rest
  | c :: cs => c :: stripJsonFence cs
  | [] => []

/-- Global replacement of the regex `/```\n?/g` with the empty string. -/
def stripBacktickFence : List Char → List Char
  | '`' :: '`' :: '`' :: '\n' :: rest => stripBacktickFence rest
  | '`' :: '`' :: '`' :: rest => stripBacktickFence rest
  | c :: cs => c :: stripBacktickFence cs
  | [] => []

/-- The fence clean-up in the handler (lines 141–146 of index.ts): when the
reply contains ` ```json ` strip both fence patterns in that order, when it
only contains ` ``` ` strip the bare fences, otherwise leave it alone. -/
def cleanedContent (content : String) : String :=
  if containsSub "```json" content then
    String.mk (stripBacktickFence (stripJsonFence content.toList))
  else if containsSub "```" content then
    String.mk (stripBacktickFence content.toList)
  else content

/-- JavaScript `s.trim()`: drop whitespace from both ends (embedded over
the character list so it evaluates by reduction). -/
def jsTrim (s : String) : String :=
  String.mk (((s.toList.dropWhile jsWhitespace).reverse.dropWhile jsWhitespace).reverse)

/-- The check `!LOVABLE_API_KEY` — the environment variable is absent or set to the
empty string. -/
def apiKeyFalsy : Option String → Bool
  | none => true
  | some s => s == ""

/-- Property `response.ok` of the Fetch API: the status is in the 200–299 range. -/
def responseOk (status : Nat) : Bool :=
  decide (200 ≤ status ∧ status ≤ 299)

/-- Everything the handler reads from the outside on one invocation: the
`imageBase64` field of the request body (`vUndefined` when absent), the
server credential, the gateway's HTTP status together with the model's
textual reply, and the platform's `JSON.parse` (abstract, returning `none`
exactly when it would throw). -/
structure ServeInput (α : Type) where
  imageBase64 : JsValue
  apiKey : Option String
  gatewayStatus : Nat
  gatewayContent : String
  jsonParse : String → Option α

/-- The JSON body of one handler response: a plain `{ error }` body, the
parse-failure body carrying `rawContent`, or the parsed model object
returned verbatim on 200. -/
inductive RespBody (α : Type) where
  | errorBody : String → RespBody α
  | parseFail : String → String → RespBody α
  | jsonBody : α → RespBody α
deriving DecidableEq

/-- The `serve` handler of src/supabase/functions/extract-document/index.ts
(status code and JSON body; CORS headers and logging omitted): presence
check, data-URL subtype regex, size bound, API-key check, gateway status
mapping, fence stripping and JSON parse, in source order. -/
def serveHandler {α : Type} (inp : ServeInput α) : Nat × RespBody α :=
  if jsTruthy inp.imageBase64 = false then
    (400, .errorBody "No image provided")
  else if base64RegexTest (jsToString inp.imageBase64) = false then
    (400, .errorBody "Invalid image format. Only JPEG, PNG, WEBP, GIF, and BMP supported.")
  else if sizeInBytes (payloadOf (jsToString inp.imageBase64)).length > maxSizeBytes then
    (400, .errorBody "Image too large. Maximum size is 10MB.")
  else if apiKeyFalsy inp.apiKey = true then
    (500, .errorBody "API key not configured")
  else if responseOk inp.gatewayStatus = false then
    if inp.gatewayStatus = 429 then
      (429, .errorBody "Rate limit exceeded. Please try again later.")
    else if inp.gatewayStatus = 402 then
      (402, .errorBody "AI credits exhausted. Please add credits.")
    else
      (500, .errorBody "Failed to process document")
  else
    match inp.jsonParse (jsTrim (cleanedContent inp.gatewayContent)) with
    | some j => (200, .jsonBody j)
    | none => (500, .parseFail "Failed to parse extracted data" inp.gatewayContent)

/-- The first four checks of the handler all pass: `imageBase64` is truthy,
matches the image data-URL regex, its measured payload is within the 10 MiB
bound, and the API key is configured. -/
def validationPasses {α : Type} (inp : ServeInput α) : Bool :=
  jsTruthy inp.imageBase64 &&
  base64RegexTest (jsToString inp.imageBase64) &&
  !(decide (sizeInBytes (payloadOf (jsToString inp.imageBase64)).length > maxSizeBytes)) &&
  !(apiKeyFalsy inp.apiKey)

/-! ## Concrete inputs used by the examples, witnesses and counterexample -/

/-- The spec's worked example: three rows whose totals are "5", "-", "7". -/
def exampleTotalsRows : List TableRow :=
  [{ qNo := "1", a := "", b := "", c := "", total := "5" },
   { qNo := "2", a := "", b := "", c := "", total := "-" },
   { qNo := "3", a := "", b := "", c := "", total := "7" }]

/-- The spec's validity example: row totals 5 and 7, `writtenTotal` "10",
`bubbleDigits` "12" — calculated 12 equals the bubble digits while the
written total disagrees. -/
def exampleRawC2 : RawData :=
  { headerInfo := some [("Exam", "Midterm")]
    tableData := some
      [⟨.vStr "1", .vStr "2", .vStr "2", .vStr "1", .vStr "5"⟩,
       ⟨.vStr "2", .vStr "3", .vStr "2", .vStr "2", .vStr "7"⟩]
    writtenTotal := .vStr "10"
    bubbleDigits := .vStr "12"
    error := .vUndefined }

/-- Successful response body of the first image of the example batch. -/
def exampleRaw1 : RawData :=
  { headerInfo := none
    tableData := some [⟨.vStr "1", .vUndefined, .vUndefined, .vUndefined, .vStr "3"⟩]
    writtenTotal := .vNum 3
    bubbleDigits := .vNum 3
    error := .vUndefined }

/-- Successful response body of the third image of the example batch. -/
def exampleRaw3 : RawData :=
  { headerInfo := none
    tableData := some [⟨.vStr "1", .vUndefined, .vUndefined, .vUndefined, .vStr "4"⟩]
    writtenTotal := .vNum 4
    bubbleDigits := .vNum 5
    error := .vUndefined }

/-- A batch of three images whose second item fails while encoding. -/
def exampleBatch : List ImageJob :=
  [⟨"img1", "one.png", .response exampleRaw1⟩,
   ⟨"img2", "two.png", .encodeError⟩,
   ⟨"img3", "three.png", .response exampleRaw3⟩]

/-- A raw row whose cells exercise the falsy values: the `total` cell is the
number 0. -/
def zeroTotalRawRow : RawRow :=
  ⟨.vStr "1", .vNum 1, .vNull, .vBool false, .vNum 0⟩

/-- A stand-in for the platform's `JSON.parse` in concrete handler runs:
accepts exactly the reply "7". -/
def toyParse : String → Option Nat :=
  fun s => if s = "7" then some 7 else none

/-- A well-formed small PNG data URL. -/
def goodSmallImage : String := "data:image/png;base64,AAAA"

/-- Request with no `imageBase64` (and, deliberately, no API key either:
the presence check must answer first). -/
def missingImageInp : ServeInput Nat :=
  { imageBase64 := .vUndefined, apiKey := none, gatewayStatus := 200,
    gatewayContent := "7", jsonParse := toyParse }

/-- Valid image but the server credential is absent. -/
def noKeyInp : ServeInput Nat :=
  { imageBase64 := .vStr goodSmallImage, apiKey := none, gatewayStatus := 200,
    gatewayContent := "7", jsonParse := toyParse }

/-- Valid request; the gateway answers 429. -/
def rateLimitInp : ServeInput Nat :=
  { imageBase64 := .vStr goodSmallImage, apiKey := some "secret", gatewayStatus := 429,
    gatewayContent := "7", jsonParse := toyParse }

/-- Valid request; the gateway answers 402. -/
def creditsInp : ServeInput Nat :=
  { imageBase64 := .vStr goodSmallImage, apiKey := some "secret", gatewayStatus := 402,
    gatewayContent := "7", jsonParse := toyParse }

/-- Valid request; the gateway answers 503. -/
def gatewayFailInp : ServeInput Nat :=
  { imageBase64 := .vStr goodSmallImage, apiKey := some "secret", gatewayStatus := 503,
    gatewayContent := "7", jsonParse := toyParse }

/-- Valid request; the model reply is wrapped in ` ```json ` fences. -/
def fencedInp : ServeInput Nat :=
  { imageBase64 := .vStr goodSmallImage, apiKey := some "secret", gatewayStatus := 200,
    gatewayContent := "```json\n7\n```", jsonParse := toyParse }

/-- Valid request; the model reply is not JSON even after stripping. -/
def unparseableInp : ServeInput Nat :=
  { imageBase64 := .vStr goodSmallImage, apiKey := some "secret", gatewayStatus := 200,
    gatewayContent := "the model said: no", jsonParse := toyParse }

/-- Smallest payload length whose measured size exceeds 10 MiB:
`⌈3·13981014/4⌉ = 10485761 > 10485760`. -/
def bigN : Nat := 13981014

/-- A supported-subtype data URL whose payload is 13 981 014 characters. -/
def bigPngStr : String :=
  String.mk ("data:image/png;base64".toList ++ ',' :: List.replicate bigN 'A')

/-- Request carrying `bigPngStr`, with every later stage able to succeed. -/
def bigPngInp : ServeInput Nat :=
  { imageBase64 := .vStr bigPngStr, apiKey := some "secret", gatewayStatus := 200,
    gatewayContent := "7", jsonParse := toyParse }

/-- An unsupported-subtype data URL with the same oversized payload. -/
def bigPlainStr : String :=
  String.mk ("data:text/plain;base64".toList ++ ',' :: List.replicate bigN 'A')

/-- Request carrying `bigPlainStr`, with every later stage able to succeed. -/
def bigPlainInp : ServeInput Nat :=
  { imageBase64 := .vStr bigPlainStr, apiKey := some "secret", gatewayStatus := 200,
    gatewayContent := "7", jsonParse := toyParse }

/-! ## Helper lemmas -/

/-- Folding the checksum step from any accumulator adds the rowwise parsed
totals to it. -/
theorem foldl_parse_totals (rows : List TableRow) (acc : Int) :
    rows.foldl (fun sum row => sum + jsParseIntOr0 row.total) acc
      = acc + (rows.map (fun row => jsParseIntOr0 row.total)).sum := by
  induction rows generalizing acc with
  | nil => simp
  | cons r rs ih =>
    simp only [List.foldl_cons, List.map_cons, List.sum_cons]
    rw [ih, add_assoc]

/-- The batch fold from any starting accumulator and counter: successes are
appended in order, failures are counted. -/
theorem handleExtract_fold (jobs : List ImageJob) (acc : List ExtractionResult) (n : Nat) :
    jobs.foldl
      (fun acc j =>
        match processImage j with
        | some r => (acc.1 ++ [r], acc.2)
        | none => (acc.1, acc.2 + 1))
      (acc, n)
      = (acc ++ jobs.filterMap processImage,
         n + jobs.countP (fun j => (processImage j).isNone)) := by
  induction jobs generalizing acc n with
  | nil => simp
  | cons j js ih =>
    cases h : processImage j with
    | some r =>
      simp only [List.foldl_cons, h, List.filterMap_cons, List.countP_cons, Option.isNone_some,
        cond_false, ih]
      simp [h]
    | none =>
      simp only [List.foldl_cons, h, List.filterMap_cons, List.countP_cons, Option.isNone_none,
        cond_true, ih]
      simp [h, Nat.add_assoc, Nat.add_comm 1]

/-- The split never returns the empty list: it always equals its head
consed onto its tail. -/
theorem jsSplitComma_head_tail (l : List Char) :
    jsSplitComma l = (jsSplitComma l).headD [] :: (jsSplitComma l).tail := by
  cases l with
  | nil => rfl
  | cons c rest =>
    simp only [jsSplitComma]
    split <;> simp

/-- The split has at least one component. -/
theorem jsSplitComma_length_pos (l : List Char) : 0 < (jsSplitComma l).length := by
  rw [jsSplitComma_head_tail l]
  simp

/-- A comma in the input forces at least two components. -/
theorem jsSplitComma_two_le (l : List Char) (h : ',' ∈ l) :
    2 ≤ (jsSplitComma l).length := by
  induction l with
  | nil => cases h
  | cons c rest ih =>
    by_cases hc : c = ','
    · subst hc
      simp only [jsSplitComma, if_pos rfl, List.length_cons]
      exact Nat.succ_le_succ (jsSplitComma_length_pos rest)
    · have hr : ',' ∈ rest := by
        rcases List.mem_cons.mp h with h1 | h1
        · exact absurd h1.symm hc
        · exact h1
      have ht := ih hr
      simp only [jsSplitComma, if_neg hc, List.length_cons, List.length_tail]
      omega

/-- A comma-free chunk prepended to the input lands entirely in the first
component of the split. -/
theorem jsSplitComma_nocomma_append (l1 : List Char) (h : ∀ c ∈ l1, c ≠ ',') (l2 : List Char) :
    jsSplitComma (l1 ++ l2)
      = (l1 ++ (jsSplitComma l2).headD []) :: (jsSplitComma l2).tail := by
  induction l1 with
  | nil => simpa using jsSplitComma_head_tail l2
  | cons c cs ih =>
    have hc : c ≠ ',' := h c (List.mem_cons_self c cs)
    have hcs : ∀ x ∈ cs, x ≠ ',' := fun x hx => h x (List.mem_cons_of_mem c hx)
    have hstep : jsSplitComma (c :: (cs ++ l2))
        = (c :: (jsSplitComma (cs ++ l2)).headD []) :: (jsSplitComma (cs ++ l2)).tail := by
      simp only [jsSplitComma, if_neg hc]
    rw [List.cons_append, hstep, ih hcs]
    simp

/-- A replicated run of 'A' has no comma and splits to itself. -/
theorem jsSplitComma_replicate (n : Nat) :
    jsSplitComma (List.replicate n 'A') = [List.replicate n 'A'] := by
  induction n with
  | zero => rfl
  | succ n ih =>
    simp only [List.replicate_succ, jsSplitComma, if_neg (by decide : ¬('A' = ','))]
    rw [ih]
    simp [List.replicate_succ]

/-- The payload the handler measures for a string of the form
`<comma-free prefix>,<n × 'A'>` is exactly the replicated run. -/
theorem payloadOf_mk (pre : List Char) (hpre : ∀ c ∈ pre, c ≠ ',') (n : Nat) :
    payloadOf (String.mk (pre ++ ',' :: List.replicate n 'A')) = List.replicate n 'A' := by
  have hsplit : jsSplitComma (pre ++ ',' :: List.replicate n 'A')
      = (pre ++ []) :: [List.replicate n 'A'] := by
    rw [jsSplitComma_nocomma_append pre hpre]
    simp only [jsSplitComma, if_pos rfl, jsSplitComma_replicate]
    rfl
  show (jsSplitComma (String.mk (pre ++ ',' :: List.replicate n 'A')).toList).getD 1 [] = _
  have htl : (String.mk (pre ++ ',' :: List.replicate n 'A')).toList
      = pre ++ ',' :: List.replicate n 'A' := rfl
  rw [htl, hsplit]
  rfl

/-- A string built around a comma is not empty. -/
theorem mk_around_comma_ne_empty (l1 : List Char) (c : Char) (l2 : List Char) :
    String.mk (l1 ++ c :: l2) ≠ "" := by
  intro h
  have h2 : (l1 ++ c :: l2).length = (("" : String).data).length :=
    congrArg (fun s => s.data.length) h
  simp at h2

/-- A nonempty string is truthy. -/
theorem jsTruthy_vStr_of_ne {s : String} (h : s ≠ "") : jsTruthy (.vStr s) = true := by
  simp only [jsTruthy, Bool.not_eq_eq_eq_not, Bool.not_true, beq_eq_false_iff_ne, ne_eq]
  exact h

/-- The oversized PNG data URL still matches the subtype regex (only its
22-character prefix is inspected). -/
theorem base64RegexTest_bigPng : base64RegexTest bigPngStr = true := rfl

/-- The oversized text/plain data URL does not match the subtype regex. -/
theorem base64RegexTest_bigPlain : base64RegexTest bigPlainStr = false := rfl

/-- The measured payload of the oversized PNG data URL. -/
theorem payloadOf_bigPng : payloadOf bigPngStr = List.replicate bigN 'A' :=
  payloadOf_mk "data:image/png;base64".toList (by decide) bigN

/-- The measured payload of the oversized text/plain data URL. -/
theorem payloadOf_bigPlain : payloadOf bigPlainStr = List.replicate bigN 'A' :=
  payloadOf_mk "data:text/plain;base64".toList (by decide) bigN

/-- Both oversized data URLs measure 10 485 761 bytes, one over the limit. -/
theorem sizeInBytes_bigN : sizeInBytes bigN > maxSizeBytes := by decide

/-! ## Claim theorems -/

/-- Claim C1: for every sequence of TableRow values the calculated checksum
is the sum over the rows of the `parseInt` of each row's `total` string,
with an empty or unparseable total contributing 0 (that is what
`jsParseIntOr0` yields there), and the Validation Rule's `calculated` field
is exactly that checksum of the normalized rows; the rows with totals
"5", "-", "7" sum to 12. -/
theorem calculated_is_rowwise_total_sum :
    (∀ rows : List TableRow,
        calculatedSum rows = (rows.map (fun row => jsParseIntOr0 row.total)).sum) ∧
    (∀ imageId imageName d,
        (mkExtractionResult imageId imageName d).totalMarks.calculated
          = calculatedSum ((d.tableData.getD []).map normRow)) ∧
    calculatedSum exampleTotalsRows = 12 := by
  refine ⟨fun rows => ?_, fun _ _ _ => rfl, by decide⟩
  simpa using foldl_parse_totals rows 0

/-- Claim C2: `isValid` holds exactly when the calculated checksum equals
the parsed `bubbleDigits`; changing nothing but the raw `writtenTotal`
never changes `isValid`; and on the spec's example (totals 5 and 7,
written 10, bubble 12) the result is valid although written ≠ calculated. -/
theorem isValid_iff_calculated_eq_bubble :
    (∀ imageId imageName d,
        ((mkExtractionResult imageId imageName d).isValid = true ↔
          (mkExtractionResult imageId imageName d).totalMarks.calculated
            = (mkExtractionResult imageId imageName d).totalMarks.bubbleDigits)) ∧
    (∀ imageId imageName d w,
        (mkExtractionResult imageId imageName { d with writtenTotal := w }).isValid
          = (mkExtractionResult imageId imageName d).isValid) ∧
    ((mkExtractionResult "img" "img.png" exampleRawC2).isValid = true ∧
     (mkExtractionResult "img" "img.png" exampleRawC2).totalMarks.calculated = 12 ∧
     (mkExtractionResult "img" "img.png" exampleRawC2).totalMarks.written = 10 ∧
     (mkExtractionResult "img" "img.png" exampleRawC2).totalMarks.bubbleDigits = 12) := by
  refine ⟨fun _ _ _ => beq_iff_eq, fun _ _ _ _ => rfl, by decide⟩

/-- Claim C3: the batch loop collects exactly the successfully processed
results in their original relative order and counts exactly the failed
items, so one failure never aborts the rest; the concrete batch of three
with the second item failing yields the first and third results in order
and a failure count of 1. -/
theorem batch_loop_isolates_failures :
    (∀ jobs : List ImageJob,
        handleExtractLoop jobs
          = (jobs.filterMap processImage,
             jobs.countP (fun j => (processImage j).isNone))) ∧
    ((handleExtractLoop exampleBatch).1
        = [mkExtractionResult "img1" "one.png" exampleRaw1,
           mkExtractionResult "img3" "three.png" exampleRaw3] ∧
     (handleExtractLoop exampleBatch).1.length = 2 ∧
     (handleExtractLoop exampleBatch).2 = 1) := by
  refine ⟨fun jobs => ?_, by decide⟩
  simpa [handleExtractLoop] using handleExtract_fold jobs [] 0

/-- Claim C6: the client turns every raw table row into string cells via
`normRow`, an absent/undefined cell becomes the empty string, the two
reported totals are `parseInt`-parsed from their string coercion, and a
value whose coercion does not parse as an integer is substituted by 0. -/
theorem client_normalizes_response :
    (∀ imageId imageName d,
        (mkExtractionResult imageId imageName d).tableData
          = (d.tableData.getD []).map normRow) ∧
    normCell .vUndefined = "" ∧
    (∀ imageId imageName d,
        (mkExtractionResult imageId imageName d).totalMarks.written
            = jsParseIntOr0 (jsToString d.writtenTotal) ∧
        (mkExtractionResult imageId imageName d).totalMarks.bubbleDigits
            = jsParseIntOr0 (jsToString d.bubbleDigits)) ∧
    (∀ v, jsParseInt (jsToString v) = none → jsParseIntOr0 (jsToString v) = 0) := by
  refine ⟨fun _ _ _ => rfl, rfl, fun _ _ _ => ⟨rfl, rfl⟩, fun v h => ?_⟩
  simp [jsParseIntOr0, h]

/-- Witness for claim C6: the undefined value does not parse as an integer
and is substituted by 0. -/
theorem client_normalizes_response_witness :
    jsParseInt (jsToString JsValue.vUndefined) = none ∧
    jsParseIntOr0 (jsToString JsValue.vUndefined) = 0 :=
  ⟨by decide, client_normalizes_response.2.2.2 JsValue.vUndefined (by decide)⟩

/-- Claim C9: cell normalization sends every falsy value — undefined, null,
false, the number 0, NaN and the empty string — to the empty string and
every truthy value to its `String(...)` coercion; in particular a row total
that is the number 0 displays as "" and still contributes 0 to the
checksum. -/
theorem normCell_falsy_to_empty :
    (∀ v, normCell v = (if jsTruthy v then jsToString v else "")) ∧
    (normCell .vUndefined = "" ∧ normCell .vNull = "" ∧ normCell (.vBool false) = "" ∧
     normCell (.vNum 0) = "" ∧ normCell .vNaN = "" ∧ normCell (.vStr "") = "") ∧
    (∀ v, jsTruthy v = true → normCell v = jsToString v) ∧
    ((normRow zeroTotalRawRow).total = "" ∧
     calculatedSum [normRow zeroTotalRawRow] = 0) := by
  refine ⟨fun v => ?_, by decide, fun v hv => ?_, by decide⟩
  · by_cases h : jsTruthy v = true
    · simp [normCell, h]
    · simp only [Bool.not_eq_true] at h
      simp [normCell, h, jsToString]
  · simp [normCell, hv]

/-- Claim C4: the handler's four validation checks answer in source order —
falsy/missing `imageBase64`, then unsupported subtype, then size, then
missing credential — and the first failing one determines the response:
400 "No image provided" for a missing image (whatever the later inputs
look like) and 500 "API key not configured" when only the credential is
missing. -/
theorem handler_validation_order :
    ∀ (α : Type) (inp : ServeInput α),
      (jsTruthy inp.imageBase64 = false →
        serveHandler inp = (400, .errorBody "No image provided")) ∧
      (jsTruthy inp.imageBase64 = true →
        base64RegexTest (jsToString inp.imageBase64) = false →
        serveHandler inp
          = (400, .errorBody "Invalid image format. Only JPEG, PNG, WEBP, GIF, and BMP supported.")) ∧
      (jsTruthy inp.imageBase64 = true →
        base64RegexTest (jsToString inp.imageBase64) = true →
        sizeInBytes (payloadOf (jsToString inp.imageBase64)).length > maxSizeBytes →
        serveHandler inp = (400, .errorBody "Image too large. Maximum size is 10MB.")) ∧
      (jsTruthy inp.imageBase64 = true →
        base64RegexTest (jsToString inp.imageBase64) = true →
        ¬(sizeInBytes (payloadOf (jsToString inp.imageBase64)).length > maxSizeBytes) →
        apiKeyFalsy inp.apiKey = true →
        serveHandler inp = (500, .errorBody "API key not configured")) := by
  intro α inp
  refine ⟨fun h1 => ?_, fun h1 h2 => ?_, fun h1 h2 h3 => ?_, fun h1 h2 h3 h4 => ?_⟩
  · simp [serveHandler, h1]
  · simp [serveHandler, h1, h2]
  · simp [serveHandler, h1, h2, h3]
  · simp [serveHandler, h1, h2, h3, h4]

/-- Witness for claim C4: a request with no image gets the presence error
even though its credential is also missing, and a well-formed request with
only the credential missing gets the configuration error. -/
theorem handler_validation_order_witness :
    serveHandler missingImageInp = (400, .errorBody "No image provided") ∧
    serveHandler noKeyInp = (500, .errorBody "API key not configured") :=
  ⟨(handler_validation_order Nat missingImageInp).1 (by decide),
   (handler_validation_order Nat noKeyInp).2.2.2 (by decide) (by decide) (by decide) (by decide)⟩

/-- Claim C8: once validation passes, a gateway status of 429 maps to a 429
rate-limit response, 402 to a 402 credits response, and every other
non-success status to a generic 500. -/
theorem handler_gateway_status_mapping :
    ∀ (α : Type) (inp : ServeInput α),
      validationPasses inp = true →
      (inp.gatewayStatus = 429 →
        serveHandler inp = (429, .errorBody "Rate limit exceeded. Please try again later.")) ∧
      (inp.gatewayStatus = 402 →
        serveHandler inp = (402, .errorBody "AI credits exhausted. Please add credits.")) ∧
      (responseOk inp.gatewayStatus = false →
        inp.gatewayStatus ≠ 429 → inp.gatewayStatus ≠ 402 →
        serveHandler inp = (500, .errorBody "Failed to process document")) := by
  intro α inp hv
  simp only [validationPasses, Bool.and_eq_true, Bool.not_eq_true', decide_eq_false_iff_not] at hv
  obtain ⟨⟨⟨h1, h2⟩, h3⟩, h4⟩ := hv
  refine ⟨fun h429 => ?_, fun h402 => ?_, fun hok hne429 hne402 => ?_⟩
  · simp [serveHandler, h1, h2, h3, h4, h429, responseOk]
  · simp [serveHandler, h1, h2, h3, h4, h402, responseOk]
  · simp [serveHandler, h1, h2, h3, h4, hok, hne429, hne402]

/-- Witness for claim C8: the three gateway statuses 429, 402 and 503 on an
otherwise valid request. -/
theorem handler_gateway_status_mapping_witness :
    validationPasses rateLimitInp = true ∧
    serveHandler rateLimitInp = (429, .errorBody "Rate limit exceeded. Please try again later.") ∧
    serveHandler creditsInp = (402, .errorBody "AI credits exhausted. Please add credits.") ∧
    serveHandler gatewayFailInp = (500, .errorBody "Failed to process document") :=
  ⟨by decide,
   (handler_gateway_status_mapping Nat rateLimitInp (by decide)).1 rfl,
   (handler_gateway_status_mapping Nat creditsInp (by decide)).2.1 rfl,
   (handler_gateway_status_mapping Nat gatewayFailInp (by decide)).2.2 (by decide) (by decide)
     (by decide)⟩

/-- Claim C7: on a successful gateway round trip the handler strips the
markdown fences, trims, and parses; if the platform parse succeeds it
answers 200 with the parsed object, and if it fails it answers 500 with
the fixed error message and `rawContent` equal to the original unstripped
reply. -/
theorem handler_fence_strip_and_parse :
    ∀ (α : Type) (inp : ServeInput α),
      validationPasses inp = true →
      responseOk inp.gatewayStatus = true →
      (∀ j, inp.jsonParse (jsTrim (cleanedContent inp.gatewayContent)) = some j →
          serveHandler inp = (200, .jsonBody j)) ∧
      (inp.jsonParse (jsTrim (cleanedContent inp.gatewayContent)) = none →
          serveHandler inp
            = (500, .parseFail "Failed to parse extracted data" inp.gatewayContent)) := by
  intro α inp hv hok
  simp only [validationPasses, Bool.and_eq_true, Bool.not_eq_true', decide_eq_false_iff_not] at hv
  obtain ⟨⟨⟨h1, h2⟩, h3⟩, h4⟩ := hv
  refine ⟨fun j hj => ?_, fun hj => ?_⟩
  · simp [serveHandler, h1, h2, h3, h4, hok, hj]
  · simp [serveHandler, h1, h2, h3, h4, hok, hj]

/-- Witness for claim C7: a reply wrapped in ` ```json ` fences whose
stripped trimmed body parses, answered 200 with the parsed object, and an
unparseable reply answered 500 carrying the original text. -/
theorem handler_fence_strip_and_parse_witness :
    validationPasses fencedInp = true ∧
    responseOk fencedInp.gatewayStatus = true ∧
    jsTrim (cleanedContent "```json\n7\n```") = "7" ∧
    serveHandler fencedInp = (200, .jsonBody 7) ∧
    serveHandler unparseableInp
      = (500, .parseFail "Failed to parse extracted data" "the model said: no") :=
  ⟨by decide, by decide, by decide,
   (handler_fence_strip_and_parse Nat fencedInp (by decide) (by decide)).1 7 (by decide),
   (handler_fence_strip_and_parse Nat unparseableInp (by decide) (by decide)).2 (by decide)⟩

/-- A character of a prefix is a character of the whole list. -/
theorem isPrefixOf_mem (p : List Char) :
    ∀ (l : List Char), p.isPrefixOf l = true → ∀ {c : Char}, c ∈ p → c ∈ l := by
  induction p with
  | nil => intro l _ c hc; cases hc
  | cons a as ih =>
    intro l h c hc
    cases l with
    | nil => simp [List.isPrefixOf] at h
    | cons b bs =>
      simp only [List.isPrefixOf, Bool.and_eq_true, beq_iff_eq] at h
      obtain ⟨hab, hrest⟩ := h
      rcases List.mem_cons.mp hc with h1 | h1
      · subst h1; subst hab; exact List.mem_cons_self c bs
      · exact List.mem_cons_of_mem b (ih bs hrest h1)

/-- Claim C5, counterexample to the claim as stated: an `imageBase64` whose
measured payload exceeds the 10 MiB bound but whose declared data-URL
subtype is `text/plain` is answered with the 400 format error, not the 400
size error — the subtype check short-circuits first, so the size response
does not come "regardless of the declared data-URL subtype". -/
theorem oversized_unsupported_subtype_gets_format_error :
    sizeInBytes (payloadOf bigPlainStr).length > maxSizeBytes ∧
    serveHandler bigPlainInp
      = (400, .errorBody "Invalid image format. Only JPEG, PNG, WEBP, GIF, and BMP supported.") ∧
    serveHandler bigPlainInp ≠ (400, .errorBody "Image too large. Maximum size is 10MB.") := by
  have hsize : sizeInBytes (payloadOf bigPlainStr).length > maxSizeBytes := by
    rw [payloadOf_bigPlain, List.length_replicate]
    exact sizeInBytes_bigN
  have hne : bigPlainStr ≠ "" :=
    mk_around_comma_ne_empty "data:text/plain;base64".toList ',' (List.replicate bigN 'A')
  have ht : jsTruthy bigPlainInp.imageBase64 = true := jsTruthy_vStr_of_ne hne
  have hr : base64RegexTest (jsToString bigPlainInp.imageBase64) = false :=
    base64RegexTest_bigPlain
  have hfmt : serveHandler bigPlainInp
      = (400, .errorBody "Invalid image format. Only JPEG, PNG, WEBP, GIF, and BMP supported.") := by
    simp [serveHandler, ht, hr]
  refine ⟨hsize, hfmt, ?_⟩
  rw [hfmt]
  decide

/-- Claim C5 as amended: for every request whose `imageBase64` is a string
passing the image-subtype check and whose extracted base64 payload measures
over 10 MiB, the handler answers 400 with the size error — regardless of
which of the supported subtypes is declared and of everything downstream. -/
theorem oversized_payload_rejected :
    ∀ (α : Type) (inp : ServeInput α) (s : String),
      inp.imageBase64 = .vStr s →
      base64RegexTest s = true →
      sizeInBytes (payloadOf s).length > maxSizeBytes →
      serveHandler inp = (400, .errorBody "Image too large. Maximum size is 10MB.") := by
  intro α inp s hs hregex hsize
  have hne : s ≠ "" := by
    intro h
    subst h
    exact absurd hregex (by decide)
  have ht : jsTruthy inp.imageBase64 = true := by
    rw [hs]
    exact jsTruthy_vStr_of_ne hne
  have hr : base64RegexTest (jsToString inp.imageBase64) = true := by
    rw [hs]
    exact hregex
  have hp : sizeInBytes (payloadOf (jsToString inp.imageBase64)).length > maxSizeBytes := by
    rw [hs]
    exact hsize
  simp [serveHandler, ht, hr, hp]

/-- Witness for the amended claim C5: a PNG data URL with a 13 981 014
character payload (measured size 10 485 761 bytes) is answered with the
size error. -/
theorem oversized_payload_rejected_witness :
    bigPngInp.imageBase64 = JsValue.vStr bigPngStr ∧
    base64RegexTest bigPngStr = true ∧
    sizeInBytes (payloadOf bigPngStr).length > maxSizeBytes ∧
    serveHandler bigPngInp = (400, .errorBody "Image too large. Maximum size is 10MB.") := by
  have hsize : sizeInBytes (payloadOf bigPngStr).length > maxSizeBytes := by
    rw [payloadOf_bigPng, List.length_replicate]
    exact sizeInBytes_bigN
  exact ⟨rfl, base64RegexTest_bigPng, hsize,
    oversized_payload_rejected Nat bigPngInp bigPngStr rfl base64RegexTest_bigPng hsize⟩

/-- Claim C10: every string the subtype regex accepts contains a comma, so
the comma split has a second component and indexing it never falls back to
the undefined case. -/
theorem accepted_data_url_has_comma :
    ∀ s : String, base64RegexTest s = true →
      ',' ∈ s.toList ∧ 2 ≤ (jsSplitComma s.toList).length ∧
      ((jsSplitComma s.toList).get? 1).isSome = true := by
  intro s h
  have hmem : ',' ∈ s.toList := by
    simp only [base64RegexTest, List.any_eq_true] at h
    obtain ⟨t, ht, hpre⟩ := h
    have hcomma : ',' ∈ ("data:image/" ++ t ++ ";base64,").toList := by
      fin_cases ht <;> decide
    exact isPrefixOf_mem _ _ hpre hcomma
  have h2 := jsSplitComma_two_le s.toList hmem
  refine ⟨hmem, h2, ?_⟩
  cases hl : jsSplitComma s.toList with
  | nil => rw [hl] at h2; simp at h2
  | cons a rest =>
    cases rest with
    | nil => rw [hl] at h2; simp at h2
    | cons b rest2 => simp

/-- Witness for claim C10: the small accepted PNG data URL. -/
theorem accepted_data_url_has_comma_witness :
    base64RegexTest goodSmallImage = true ∧
    (',' ∈ goodSmallImage.toList ∧ 2 ≤ (jsSplitComma goodSmallImage.toList).length ∧
      ((jsSplitComma goodSmallImage.toList).get? 1).isSome = true) :=
  ⟨by decide, accepted_data_url_has_comma goodSmallImage (by decide)⟩
